import Mathlib

/-!
Shallow embedding of the vue-nutrient-viewer-app repository.

The embedding translates, from the TypeScript source:
- the JWT issuance utilities and the POST /api/jwt route
  (apps/server/src/utils/jwt.ts, apps/server/src/routes/jwt.ts);
- the GET /api/documents/:id/layers route (apps/server/src/routes/documents.ts)
  and the useInstantLayers composable (apps/web/src/composables/useViewerLayers.ts);
- the event-sanitation and listener lifecycle of useViewerEvents
  (apps/web/src/composables/useViewerEvents.ts);
- the navigation / zoom / search façade and its event mirror, useViewerActions;
- the annotation manager, useAnnotations (apps/web/src/composables/useAnnotations.ts).

JavaScript runtime values are embedded as the inductive type JsVal.  An object
exposing a callable toJS method (an Immutable.js value) is represented by the
constructor JsVal.immut c, where c is the value that calling toJS() returns;
JsVal.obj represents plain objects without that capability.  JS numbers are
embedded as rationals.  Asynchronous effects are sequentialized: every modeled
operation runs to completion, with its network or engine outcome passed in as
an explicit argument.
-/

namespace NutrientApp

/-- Untyped JavaScript-like runtime values. -/
inductive JsVal where
  | null : JsVal
  | undef : JsVal
  | bool : Bool → JsVal
  | num : ℚ → JsVal
  | str : String → JsVal
  | fn : Nat → JsVal
  | arr : List JsVal → JsVal
  | obj : List (String × JsVal) → JsVal
  | immut : JsVal → JsVal
  deriving Repr

/-- Property read on a plain object: value of the first field with the key. -/
def jsLookup (fs : List (String × JsVal)) (k : String) : Option JsVal :=
  (fs.find? (fun p => p.1 == k)).map (fun p => p.2)

/-- The whitespace characters recognized by the model of String.prototype.trim
(the ASCII subset of the ECMAScript WhiteSpace/LineTerminator classes). -/
def jsWhitespace (c : Char) : Bool :=
  c == ' ' || c == '\t' || c == '\n' || c == '\r' || c == '\x0b' || c == '\x0c'

/-- Model of JavaScript's String.prototype.trim. -/
def jsTrim (s : String) : String :=
  ⟨((s.data.dropWhile jsWhitespace).reverse.dropWhile jsWhitespace).reverse⟩

/-! ### Event sanitation (useViewerEvents.ts, sanitizeEventData) -/

/-- Whether a key uses the private-naming convention: the model of
key.startsWith("_"), which holds exactly when the first character is an
underscore. -/
def isPrivateKey (k : String) : Bool :=
  match k.data with
  | [] => false
  | c :: _ => c == '_'

/-- One field of the plain-object branch of sanitizeEventData: entries whose
value is a function and keys starting with an underscore are dropped; a nested
non-null object is replaced by its toJS() result when it has one and by the
placeholder string "[Object]" otherwise; primitive values are kept as-is. -/
def sanitizeField (k : String) (v : JsVal) : Option (String × JsVal) :=
  if isPrivateKey k then none
  else
    match v with
    | .fn _ => none
    | .immut c => some (k, c)
    | .arr _ => some (k, .str "[Object]")
    | .obj _ => some (k, .str "[Object]")
    | v => some (k, v)

mutual

/-- sanitizeEventData from useViewerEvents.ts: null/undefined become null; a
value with a callable toJS returns the toJS() result; an array is sanitized
element-wise; any other object becomes a shallow copy via sanitizeField;
primitives pass through. -/
def sanitizeEventData : JsVal → JsVal
  | .null => .null
  | .undef => .null
  | .immut c => c
  | .arr xs => .arr (sanitizeEventList xs)
  | .obj fs => .obj (fs.filterMap (fun p => sanitizeField p.1 p.2))
  | .bool b => .bool b
  | .num q => .num q
  | .str s => .str s
  | .fn i => .fn i

/-- Element-wise sanitation of an array payload. -/
def sanitizeEventList : List JsVal → List JsVal
  | [] => []
  | x :: xs => sanitizeEventData x :: sanitizeEventList xs

end

/-! ### JWT issuance (apps/server/src/utils/jwt.ts, routes/jwt.ts) -/

/-- The claims object passed to jwt.sign (jti and exp are added by the signing
options, not by the claims records built in utils/jwt.ts). -/
structure JwtPayload where
  document_id : String
  permissions : List String
  layer : Option String := none
  deriving DecidableEq, Repr

/-- The default permission set used by every generator in utils/jwt.ts. -/
def defaultPermissions : List String := ["read-document", "write", "download"]

/-- generateDocumentEngineJWT: fails when the signing key env var is unset. -/
def generateDocumentEngineJWT (key : Option String) (documentId : String) :
    Except String JwtPayload :=
  match key with
  | none => .error "DE_JWT_PRIVATE_KEY environment variable is not set"
  | some _ => .ok { document_id := documentId, permissions := defaultPermissions }

/-- generateJWTWithPermissions; the permissions parameter defaults to
defaultPermissions when the caller passes none (TS default parameter). -/
def generateJWTWithPermissions (key : Option String) (documentId : String)
    (permissions : Option (List String)) : Except String JwtPayload :=
  match key with
  | none => .error "DE_JWT_PRIVATE_KEY environment variable is not set"
  | some _ =>
    .ok { document_id := documentId, permissions := permissions.getD defaultPermissions }

/-- generateJWTForLayer: the layer claim is added whenever layerName is not
null, including when it is the empty string. -/
def generateJWTForLayer (key : Option String) (documentId : String)
    (layerName : Option String) (permissions : Option (List String)) :
    Except String JwtPayload :=
  match key with
  | none => .error "DE_JWT_PRIVATE_KEY environment variable is not set"
  | some _ =>
    .ok { document_id := documentId
          permissions := permissions.getD defaultPermissions
          layer := layerName }

/-- The request body of POST /api/jwt.  documentId is none when absent or not
a string; layer is none when absent or not a string (the route checks typeof
body.layer === 'string'). -/
structure JwtBody where
  documentId : Option String := none
  permissions : Option (List String) := none
  layer : Option String := none
  deriving DecidableEq, Repr

/-- An h3 createError value: status code plus message. -/
structure HttpError where
  statusCode : Nat
  message : String
  deriving DecidableEq, Repr

/-- The POST /api/jwt handler.  A missing body, a missing documentId or an
empty-string documentId (falsy) yield 400; a layer string routes to
generateJWTForLayer; otherwise permissions select between the two remaining
generators; a missing signing key surfaces as the 500 configuration error. -/
def handleJwtPost (key : Option String) (body : Option JwtBody) :
    Except HttpError JwtPayload :=
  match body with
  | none => .error ⟨400, "documentId is required and must be a string"⟩
  | some b =>
    match b.documentId with
    | none => .error ⟨400, "documentId is required and must be a string"⟩
    | some d =>
      if d = "" then .error ⟨400, "documentId is required and must be a string"⟩
      else
        let signed : Except String JwtPayload :=
          match b.layer with
          | some s => generateJWTForLayer key d (some s) b.permissions
          | none =>
            match b.permissions with
            | some ps => generateJWTWithPermissions key d (some ps)
            | none => generateDocumentEngineJWT key d
        match signed with
        | .ok tok => .ok tok
        | .error _ =>
          .error ⟨500, "Server not configured: JWT private key missing. See README for setup."⟩

/-! ### Layer directory (routes/documents.ts, useViewerLayers.ts) -/

/-- Outcome of a fetch against the upstream Document Engine: a successful JSON
body, a non-ok HTTP response, or a network-level failure of fetch itself. -/
inductive UpstreamResult (α : Type) where
  | ok : α → UpstreamResult α
  | httpError : Nat → String → UpstreamResult α
  | fetchError : String → UpstreamResult α

/-- The body computation of GET /api/documents/:id/layers on upstream success:
the default layer "" is prepended only when the upstream list does not already
contain it (layers.unshift('') guarded by !layers.includes('')). -/
def layersRouteBody (upstream : List String) : List String :=
  if "" ∈ upstream then upstream else "" :: upstream

/-- The GET /api/documents/:id/layers handler.  The upstream JSON carries the
name list in its data field (data.data || []). -/
def handleLayersRoute (docId : Option String)
    (upstream : UpstreamResult (Option (List String))) :
    Except HttpError (List String) :=
  match docId with
  | none => .error ⟨400, "Document ID is required"⟩
  | some _ =>
    match upstream with
    | .ok data => .ok (layersRouteBody (data.getD []))
    | .httpError status statusText =>
      .error ⟨status, "Document Engine error: " ++ statusText⟩
    | .fetchError _ =>
      .error ⟨503, "Document Engine not available. Is Docker running?"⟩

/-- The InstantLayer record of useViewerLayers.ts. -/
structure InstantLayer where
  name : String
  displayName : String
  isDefault : Bool
  deriving DecidableEq, Repr

/-- The mapping applied by fetchLayers to each upstream name. -/
def mkInstantLayer (n : String) : InstantLayer :=
  { name := n
    displayName := if n = "" then "Default" else n
    isDefault := n == "" }

/-- The layer list the web client ends up with for a given upstream name list,
when both the server route and the client fetch succeed. -/
def fetchLayersPipeline (upstream : List String) : List InstantLayer :=
  (layersRouteBody upstream).map mkInstantLayer

/-- Reactive state of useInstantLayers (the transient isLoading flag is
omitted: every modeled call runs to completion, leaving it false). -/
structure LayersState where
  layers : List InstantLayer := []
  currentLayerName : Option String := none
  error : Option String := none
  deriving DecidableEq, Repr

/-- fetchLayers of useViewerLayers.ts: no document clears the list; a failed
route call records the error and clears the list; on success the names are
mapped through mkInstantLayer and the current layer defaults to "" when the
list is non-empty and no current layer was chosen yet. -/
def fetchLayersRun (st : LayersState) (docId : Option String)
    (upstream : UpstreamResult (Option (List String))) : LayersState :=
  match docId with
  | none => { st with layers := [] }
  | some d =>
    match handleLayersRoute (some d) upstream with
    | .error e =>
      { st with error := some ("Failed to fetch layers: " ++ e.message), layers := [] }
    | .ok names =>
      let ls := names.map mkInstantLayer
      let st1 := { st with layers := ls, error := none }
      if st1.currentLayerName = none ∧ 0 < ls.length then
        { st1 with currentLayerName := some "" }
      else st1

/-- getLayerJWT of useViewerLayers.ts.  The POST /api/jwt exchange is passed
in as the function issue from request body to HTTP outcome; no document id
returns null without touching the error state; a failed request records the
error and returns null. -/
def getLayerJWT (st : LayersState) (docId : Option String)
    (issue : JwtBody → Except HttpError String) (layerName : String) :
    LayersState × Option String :=
  match docId with
  | none => (st, none)
  | some d =>
    match issue { documentId := some d, layer := some layerName } with
    | .ok tok => (st, some tok)
    | .error e =>
      ({ st with error := some ("Failed to get layer JWT: " ++ e.message) }, none)

/-- createLayer of useViewerLayers.ts: an empty/whitespace name or a name
already in the directory is rejected with an error and no mutation; otherwise
the layer record is appended first and only then is the layer JWT requested. -/
def createLayer (st : LayersState) (docId : Option String)
    (issue : JwtBody → Except HttpError String) (layerName : String) :
    LayersState × Option String :=
  if jsTrim layerName = "" then
    ({ st with error := some "Layer name cannot be empty" }, none)
  else if st.layers.any (fun l => l.name == layerName) then
    ({ st with error := some ("Layer \"" ++ layerName ++ "\" already exists") }, none)
  else
    let st1 := { st with layers :=
      st.layers ++ [{ name := layerName, displayName := layerName, isDefault := false }] }
    getLayerJWT st1 docId issue layerName

/-- reset of useViewerLayers.ts. -/
def layersReset (_st : LayersState) : LayersState :=
  { layers := [], currentLayerName := none, error := none }

/-! ### Action façade (useViewerActions, src/unnamed/part_003) -/

/-- The engine view state consumed and updated through setViewState. -/
structure ViewState where
  currentPageIndex : ℚ
  zoom : JsVal
  deriving Repr

/-- The slice of a NutrientViewer instance the façade reads. -/
structure InstData where
  viewState : ViewState
  totalPageCount : ℚ
  deriving Repr

/-- Reactive state of useViewerActions plus the bound engine instance (none
when no document is loaded). -/
structure ActionsState where
  inst : Option InstData
  currentPage : ℚ
  totalPages : ℚ
  currentZoom : JsVal
  deriving Repr

/-- The engine zoom value after an update, if an instance is bound. -/
def engineZoom (s : ActionsState) : Option JsVal :=
  s.inst.map (fun d => d.viewState.zoom)

/-- The engine current page index, if an instance is bound. -/
def enginePage (s : ActionsState) : Option ℚ :=
  s.inst.map (fun d => d.viewState.currentPageIndex)

/-- The zoom step and bounds constants of useViewerActions. -/
def ZOOM_STEP : ℚ := 1 / 4

/-- Lower zoom bound. -/
def MIN_ZOOM : ℚ := 1 / 10

/-- Upper zoom bound. -/
def MAX_ZOOM : ℚ := 10

/-- goToPage: no instance is a no-op; otherwise the index is clamped into
[0, totalPages - 1] and written into the engine view state. -/
def goToPage (s : ActionsState) (pageIndex : ℚ) : ActionsState :=
  match s.inst with
  | none => s
  | some d =>
    let clampedIndex := max 0 (min pageIndex (s.totalPages - 1))
    { s with inst := some { d with viewState := { d.viewState with currentPageIndex := clampedIndex } } }

/-- goToNextPage steps from the mirrored current page. -/
def goToNextPage (s : ActionsState) : ActionsState :=
  goToPage s (s.currentPage + 1)

/-- goToPreviousPage steps from the mirrored current page. -/
def goToPreviousPage (s : ActionsState) : ActionsState :=
  goToPage s (s.currentPage - 1)

/-- goToFirstPage. -/
def goToFirstPage (s : ActionsState) : ActionsState :=
  goToPage s 0

/-- goToLastPage targets the mirrored total page count minus one. -/
def goToLastPage (s : ActionsState) : ActionsState :=
  goToPage s (s.totalPages - 1)

/-- setZoom writes the given zoom value (number or named mode) into the engine
view state; a missing instance is a no-op. -/
def setZoom (s : ActionsState) (zoom : JsVal) : ActionsState :=
  match s.inst with
  | none => s
  | some d =>
    { s with inst := some { d with viewState := { d.viewState with zoom := zoom } } }

/-- zoomIn: a numeric mirrored zoom steps up by ZOOM_STEP bounded by MAX_ZOOM;
a non-numeric (fit-mode) zoom switches to the fixed numeric value 1.25. -/
def zoomIn (s : ActionsState) : ActionsState :=
  match s.inst with
  | none => s
  | some _ =>
    match s.currentZoom with
    | .num z => setZoom s (.num (min (z + ZOOM_STEP) MAX_ZOOM))
    | _ => setZoom s (.num (5 / 4))

/-- zoomOut: a numeric mirrored zoom steps down by ZOOM_STEP bounded by
MIN_ZOOM; a non-numeric (fit-mode) zoom switches to the fixed value 0.75. -/
def zoomOut (s : ActionsState) : ActionsState :=
  match s.inst with
  | none => s
  | some _ =>
    match s.currentZoom with
    | .num z => setZoom s (.num (max (z - ZOOM_STEP) MIN_ZOOM))
    | _ => setZoom s (.num (3 / 4))

/-! ### Search (useViewerActions.search) -/

/-- A geometric rectangle (NutrientViewer.Geometry.Rect). -/
structure GeoRect where
  left : ℚ
  top : ℚ
  width : ℚ
  height : ℚ
  deriving DecidableEq, Repr

/-- One engine search result. -/
structure SearchResultItem where
  pageIndex : ℚ
  rectsOnPage : List GeoRect
  deriving DecidableEq, Repr

/-- Bounding box of two rectangles. -/
def rectJoin (a b : GeoRect) : GeoRect :=
  let l := min a.left b.left
  let t := min a.top b.top
  let r := max (a.left + a.width) (b.left + b.width)
  let bo := max (a.top + a.height) (b.top + b.height)
  { left := l, top := t, width := r - l, height := bo - t }

/-- Models NutrientViewer.Geometry.Rect.union (external SDK): the smallest
bounding rectangle enclosing the given rectangles, none for an empty list. -/
def rectUnion : List GeoRect → Option GeoRect
  | [] => none
  | r :: rs => some (rs.foldl rectJoin r)

/-- The view jump a search navigation performs. -/
inductive NavAction where
  | noop : NavAction
  | jumpToRect : ℚ → GeoRect → NavAction
  | gotoPage : ℚ → NavAction
  deriving DecidableEq, Repr

/-- What search returns: the mapped results, the match count, whether the
engine search call was made, whether the SDK highlight state was set, the jump
performed on the first result, and the goToResult navigator (the navigator is
modeled as the jump it performs for a given index, assuming the instance is
still bound when it is invoked). -/
structure SearchReturn where
  results : List SearchResultItem
  totalMatches : Nat
  engineSearchInvoked : Bool
  highlightSet : Bool
  firstJump : NavAction
  goToResult : Int → NavAction

/-- The neutral search return of the guard and catch paths, with a navigator
that does nothing. -/
def emptySearchReturn (invoked : Bool) : SearchReturn :=
  { results := []
    totalMatches := 0
    engineSearchInvoked := invoked
    highlightSet := false
    firstJump := .noop
    goToResult := fun _ => .noop }

/-- The jump goToResult performs for an in-range index: the union rect of the
result when it has rects, otherwise a plain page jump. -/
def goToResultAction (results : List SearchResultItem) (index : Int) : NavAction :=
  if index < 0 ∨ (results.length : Int) ≤ index then .noop
  else
    match results.get? index.toNat with
    | none => .noop
    | some r =>
      if 0 < r.rectsOnPage.length then
        match rectUnion r.rectsOnPage with
        | some rect => .jumpToRect r.pageIndex rect
        | none => .noop
      else .gotoPage r.pageIndex

/-- search of useViewerActions.  The engine search call is passed in as a
function from query to outcome; a missing instance or an
empty-after-trim query short-circuits to the neutral return without invoking
it; a rejected engine call is caught and also yields the neutral return. -/
def searchRun (inst : Option (String → Except String (List SearchResultItem)))
    (query : String) : SearchReturn :=
  match inst with
  | none => emptySearchReturn false
  | some engineSearch =>
    if jsTrim query = "" then emptySearchReturn false
    else
      match engineSearch query with
      | .error _ => emptySearchReturn true
      | .ok results =>
        let firstJump :=
          match results.head? with
          | none => .noop
          | some firstResult =>
            if 0 < firstResult.rectsOnPage.length then
              match rectUnion firstResult.rectsOnPage with
              | some rect => NavAction.jumpToRect firstResult.pageIndex rect
              | none => NavAction.noop
            else NavAction.noop
        { results := results
          totalMatches := results.length
          engineSearchInvoked := true
          highlightSet := true
          firstJump := firstJump
          goToResult := fun index => goToResultAction results index }

/-! ### Event synchronization bridge (useViewerEvents.ts) -/

/-- The fixed event-kind set tracked by useViewerEvents. -/
def trackedEvents : List String :=
  ["viewState.change",
   "viewState.currentPageIndex.change",
   "viewState.zoom.change",
   "annotations.change",
   "annotations.create",
   "annotations.update",
   "annotations.delete",
   "annotations.load",
   "document.change",
   "textSelection.change"]

/-- One entry of the activity log. -/
structure BridgeEvent where
  id : Nat
  type : String
  data : JsVal
  deriving Repr

/-- The events-bridge world: the engine-side registry of (instance id, event
kind) pairs carrying this bridge's handlers, the composable's isListening
flag and listener-map keys, the activity log with its id counter, and the
log capacity (maxEvents, default 50). -/
structure EventsWorld where
  registry : List (Nat × String)
  listening : Bool
  listenerTypes : List String
  log : List BridgeEvent
  counter : Nat
  maxEvents : Nat
  deriving Repr

/-- Delivery of an engine event: an instance's event reaches the bridge only
if the bridge's handler is registered on that (instance, kind) pair; the
handler prepends a sanitized record and truncates the log to maxEvents. -/
def deliverEvent (i : Nat) (t : String) (payload : JsVal) (w : EventsWorld) :
    EventsWorld :=
  if (i, t) ∈ w.registry then
    let n := w.counter + 1
    { w with
      counter := n
      log := (⟨n, t, sanitizeEventData payload⟩ :: w.log).take w.maxEvents }
  else w

/-- startListening: a no-op without an instance or when already listening;
otherwise attaches one handler per tracked event kind to the given instance
(the listener map was empty beforehand, so its keys become trackedEvents). -/
def startListening (instOpt : Option Nat) (w : EventsWorld) : EventsWorld :=
  match instOpt with
  | none => w
  | some b =>
    if w.listening then w
    else
      { w with
        registry := w.registry ++ trackedEvents.map (fun t => (b, t))
        listenerTypes := trackedEvents
        listening := true }

/-- Removal of this bridge's listeners from instance a: each (a, kind) pair
whose kind is in the listener map is removed from the engine registry, the
map is cleared, and isListening drops to false. -/
def removeBridgeListeners (a : Nat) (w : EventsWorld) : EventsWorld :=
  { w with
    registry := w.registry.filter (fun p => !(p.1 == a && w.listenerTypes.contains p.2))
    listenerTypes := []
    listening := false }

/-- The cleanup half of the watch(instance) callback: listeners are removed
from the old instance only when one exists and the bridge is listening. -/
def eventsCleanup (oldInst : Option Nat) (w : EventsWorld) : EventsWorld :=
  match oldInst with
  | some a => if w.listening then removeBridgeListeners a w else w
  | none => w

/-- The watch(instance) callback of useViewerEvents: full cleanup of the old
instance's listeners, then auto-start listening on the new instance. -/
def eventsWatchCb (newInst oldInst : Option Nat) (w : EventsWorld) : EventsWorld :=
  startListening newInst (eventsCleanup oldInst w)

/-- A primitive engine-listener operation, for stating ordering properties of
the watch callbacks. -/
inductive ListenerOp where
  | remove : Nat → String → ListenerOp
  | attach : Nat → String → ListenerOp
  deriving DecidableEq, Repr

/-- Whether an operation is a removal. -/
def ListenerOp.isRemove : ListenerOp → Bool
  | .remove _ _ => true
  | .attach _ _ => false

/-- Whether an operation is an attachment. -/
def ListenerOp.isAttach : ListenerOp → Bool
  | .remove _ _ => false
  | .attach _ _ => true

/-- The sequence of removeEventListener/addEventListener calls the
useViewerEvents watch callback issues, in program order: all removals from the
old instance, then all attachments to the new one. -/
def eventsWatchOps (newInst oldInst : Option Nat) (w : EventsWorld) : List ListenerOp :=
  (match oldInst with
   | some a => if w.listening then w.listenerTypes.map (fun t => ListenerOp.remove a t) else []
   | none => []) ++
  (match newInst with
   | some b =>
     if (eventsCleanup oldInst w).listening then []
     else trackedEvents.map (fun t => ListenerOp.attach b t)
   | none => [])

/-- The registry invariant of a reachable events-bridge world whose bound
instance is cur: every registered handler sits on the current instance, the
bridge is listening, and the kind is recorded in the listener map. -/
def EventsInv (w : EventsWorld) (cur : Option Nat) : Prop :=
  ∀ p ∈ w.registry, cur = some p.1 ∧ w.listening = true ∧ p.2 ∈ w.listenerTypes

/-! ### Event mirror of useViewerActions (src/unnamed/part_003) -/

/-- The two event kinds useViewerActions subscribes to. -/
def actionsEvents : List String :=
  ["viewState.currentPageIndex.change", "viewState.zoom.change"]

/-- extractZoomValue: a number stays a number; an object with a zoomMode key
yields that key's value; a string stays a string; anything else falls back to
the numeric zoom 1. -/
def extractZoomValue : JsVal → JsVal
  | .num q => .num q
  | .obj fs =>
    match jsLookup fs "zoomMode" with
    | some z => z
    | none => .num 1
  | .str s => .str s
  | _ => .num 1

/-- The actions-bridge world: the engine-side registry carrying this
composable's two handlers, the handler-map keys, and the mirrored cells. -/
structure ActionsWorld where
  registry : List (Nat × String)
  handlerTypes : List String
  currentPage : ℚ
  totalPages : ℚ
  currentZoom : JsVal
  deriving Repr

/-- setupEventListeners: initialize the mirrored cells from the instance and
attach the page and zoom handlers to it. -/
def setupActions (b : Nat) (d : InstData) (w : ActionsWorld) : ActionsWorld :=
  { registry := w.registry ++ actionsEvents.map (fun t => (b, t))
    handlerTypes := actionsEvents
    currentPage := d.viewState.currentPageIndex
    totalPages := d.totalPageCount
    currentZoom := extractZoomValue d.viewState.zoom }

/-- cleanupEventListeners on instance a: remove every handler of the map from
a and clear the map. -/
def cleanupActions (a : Nat) (w : ActionsWorld) : ActionsWorld :=
  { w with
    registry := w.registry.filter (fun p => !(p.1 == a && w.handlerTypes.contains p.2))
    handlerTypes := [] }

/-- The watch(instance) callback of useViewerActions: unconditional cleanup of
the old instance, then either setup on the new instance or a reset of the
mirrored cells when the instance was cleared. -/
def actionsWatchCb (newInst : Option (Nat × InstData)) (oldInst : Option Nat)
    (w : ActionsWorld) : ActionsWorld :=
  let w1 := match oldInst with
    | some a => cleanupActions a w
    | none => w
  match newInst with
  | some (b, d) => setupActions b d w1
  | none => { w1 with currentPage := 0, totalPages := 0, currentZoom := .num 1 }

/-- The engine-listener call sequence of the useViewerActions watch callback,
in program order. -/
def actionsWatchOps (newInst : Option (Nat × InstData)) (oldInst : Option Nat)
    (w : ActionsWorld) : List ListenerOp :=
  (match oldInst with
   | some a => w.handlerTypes.map (fun t => ListenerOp.remove a t)
   | none => []) ++
  (match newInst with
   | some (b, _) => actionsEvents.map (fun t => ListenerOp.attach b t)
   | none => [])

/-- Delivery of an engine event to the actions mirror: the page handler
mirrors the numeric page index (the handler casts its payload to number;
payloads outside the engine contract leave the cell unchanged), the zoom
handler mirrors the extracted zoom value. -/
def deliverAction (i : Nat) (t : String) (payload : JsVal) (w : ActionsWorld) :
    ActionsWorld :=
  if (i, t) ∈ w.registry then
    if t = "viewState.currentPageIndex.change" then
      match payload with
      | .num q => { w with currentPage := q }
      | _ => w
    else if t = "viewState.zoom.change" then
      { w with currentZoom := extractZoomValue payload }
    else w
  else w

/-- The registry invariant of a reachable actions-bridge world. -/
def ActionsInv (w : ActionsWorld) (cur : Option Nat) : Prop :=
  ∀ p ∈ w.registry, cur = some p.1 ∧ p.2 ∈ w.handlerTypes

/-! ### Annotation manager (useAnnotations.ts) -/

/-- An rgb color (NutrientViewer.Color). -/
structure AnnColor where
  r : Nat
  g : Nat
  b : Nat
  deriving DecidableEq, Repr

/-- NutrientViewer.Color.BLACK. -/
def blackColor : AnnColor := ⟨0, 0, 0⟩

/-- The light-yellow fill used for text annotations. -/
def lightYellowColor : AnnColor := ⟨255, 255, 200⟩

/-- A position {left, top}. -/
structure AnnPoint where
  left : ℚ
  top : ℚ
  deriving DecidableEq, Repr

/-- A size {width, height}. -/
structure AnnSize where
  width : ℚ
  height : ℚ
  deriving DecidableEq, Repr

/-- The options record of createTextAnnotation. -/
structure CreateTextAnnotationOptions where
  pageIndex : ℚ
  text : String
  position : AnnPoint
  size : Option AnnSize := none
  customData : Option (List (String × JsVal)) := none

/-- The TextAnnotation value handed to the engine's create call. -/
structure TextAnnotation where
  pageIndex : ℚ
  boundingBox : GeoRect
  textFormat : String
  textValue : String
  fontSize : ℚ
  fontColor : AnnColor
  backgroundColor : AnnColor
  customData : Option (List (String × JsVal))

/-- The annotation construction inside createTextAnnotation: position and size
(default 200 by 100) become the bounding box, the styling is fixed, and the
customData option is passed through verbatim. -/
def buildTextAnn (o : CreateTextAnnotationOptions) : TextAnnotation :=
  let size := o.size.getD ⟨200, 100⟩
  { pageIndex := o.pageIndex
    boundingBox := ⟨o.position.left, o.position.top, size.width, size.height⟩
    textFormat := "plain"
    textValue := o.text
    fontSize := 14
    fontColor := blackColor
    backgroundColor := lightYellowColor
    customData := o.customData }

/-- An annotation as stored by the engine. -/
structure EngineAnnotation where
  id : String
  type : String
  pageIndex : ℚ
  customData : Option (List (String × JsVal))

/-- The engine-side document: page count and annotation store (external
engine, modeled from the instance API contract of the viewer SDK). -/
structure EngineDoc where
  totalPageCount : Nat
  anns : List EngineAnnotation
  nextId : Nat

/-- instance.getAnnotations(page): the stored annotations on that page. -/
def engineGetAnnotations (doc : EngineDoc) (p : ℚ) : List EngineAnnotation :=
  doc.anns.filter (fun a => a.pageIndex == p)

/-- instance.create(textAnnotation): the engine assigns a fresh id, stores the
annotation, and resolves with the list of created annotations. -/
def engineCreate (doc : EngineDoc) (ta : TextAnnotation) :
    EngineDoc × List EngineAnnotation :=
  let created : EngineAnnotation :=
    { id := "ann-" ++ toString doc.nextId
      type := "text"
      pageIndex := ta.pageIndex
      customData := ta.customData }
  ({ doc with anns := doc.anns ++ [created], nextId := doc.nextId + 1 }, [created])

/-- The local record shape of useAnnotations. -/
structure AnnotationData where
  id : String
  type : String
  pageIndex : ℚ
  customData : Option (List (String × JsVal))

/-- mapAnnotationData of useAnnotations.ts. -/
def mapAnnotationData (a : EngineAnnotation) : AnnotationData :=
  { id := a.id, type := a.type, pageIndex := a.pageIndex, customData := a.customData }

/-- getAnnotations(pageIndex): empty without an instance, else the engine list
for the page mapped to the local shape. -/
def getAnnotationsModel (inst : Option EngineDoc) (p : ℚ) : List AnnotationData :=
  match inst with
  | none => []
  | some doc => (engineGetAnnotations doc p).map mapAnnotationData

/-- getAllAnnotations: per-page results for pages 0 .. totalPageCount - 1
concatenated in ascending page order. -/
def getAllAnnotationsModel (inst : Option EngineDoc) : List AnnotationData :=
  match inst with
  | none => []
  | some doc =>
    ((List.range doc.totalPageCount).map
      (fun i => getAnnotationsModel (some doc) (i : ℚ))).flatten

/-- The local cache state of useAnnotations. -/
structure AnnotationsState where
  annotations : List AnnotationData := []
  error : Option String := none

/-- createTextAnnotation: throws without an instance; otherwise builds the
annotation, creates it via the engine, and on a successful create (the engine
returned the created annotation) refreshes the entire local cache by a full
re-fetch before returning the mapped annotation. -/
def createTextAnnotationModel (inst : Option EngineDoc) (st : AnnotationsState)
    (o : CreateTextAnnotationOptions) :
    Except String (EngineDoc × AnnotationsState × Option AnnotationData) :=
  match inst with
  | none => .error "Viewer not initialized"
  | some doc =>
    let res := engineCreate doc (buildTextAnn o)
    match res.2.head? with
    | some a =>
      let st2 : AnnotationsState :=
        { st with annotations := getAllAnnotationsModel (some res.1), error := none }
      .ok (res.1, st2, some (mapAnnotationData a))
    | none => .ok (res.1, st, none)

/-! ### Concrete sample states used by witness theorems -/

/-- A five-page instance in fit-to-width mode. -/
def fitModeSample : ActionsState :=
  { inst := some { viewState := { currentPageIndex := 0, zoom := .str "FIT_TO_WIDTH" }, totalPageCount := 5 }
    currentPage := 0
    totalPages := 5
    currentZoom := .str "FIT_TO_WIDTH" }

/-- A five-page instance at numeric zoom 1, on page 2. -/
def navSample : ActionsState :=
  { inst := some { viewState := { currentPageIndex := 2, zoom := .num 1 }, totalPageCount := 5 }
    currentPage := 2
    totalPages := 5
    currentZoom := .num 1 }

/-- An idle events-bridge world. -/
def idleEventsWorld : EventsWorld :=
  { registry := [], listening := false, listenerTypes := [], log := [], counter := 0, maxEvents := 50 }

/-- An idle actions-bridge world. -/
def idleActionsWorld : ActionsWorld :=
  { registry := [], handlerTypes := [], currentPage := 0, totalPages := 0, currentZoom := .num 1 }

/-- Creation options carrying an empty customData mapping. -/
def emptyCustomDataOpts : CreateTextAnnotationOptions :=
  { pageIndex := 0, text := "t", position := { left := 0, top := 0 }, customData := some [] }

/-- Creation options with size and customData omitted. -/
def sampleCreateOpts : CreateTextAnnotationOptions :=
  { pageIndex := 0, text := "hello", position := { left := 10, top := 20 } }

/-- A two-page engine document with no annotations yet. -/
def sampleEngineDoc : EngineDoc :=
  { totalPageCount := 2, anns := [], nextId := 0 }

/-- An events-bridge world actively listening to instance 0 on one event
kind. -/
def listeningEventsWorld : EventsWorld :=
  { registry := [(0, "document.change")]
    listening := true
    listenerTypes := ["document.change"]
    log := []
    counter := 0
    maxEvents := 50 }

/-! ## Helper lemmas -/

/-- Sanitizing a list payload is element-wise sanitation. -/
theorem sanitizeEventList_eq_map (xs : List JsVal) :
    sanitizeEventList xs = xs.map sanitizeEventData := by
  induction xs with
  | nil => rfl
  | cons x xs ih => simp [sanitizeEventList, ih]

/-- Dropping with a predicate every element satisfies empties the list. -/
theorem dropWhile_of_all {p : Char → Bool} (l : List Char)
    (h : ∀ c ∈ l, p c = true) : l.dropWhile p = [] := by
  induction l with
  | nil => rfl
  | cons c cs ih =>
    rw [List.dropWhile_cons_of_pos (h c (by simp))]
    exact ih (fun x hx => h x (by simp [hx]))

/-- A string all of whose characters are whitespace trims to the empty
string. -/
theorem jsTrim_of_all_whitespace (s : String)
    (h : s.data.all jsWhitespace = true) : jsTrim s = "" := by
  have hall : ∀ c ∈ s.data, jsWhitespace c = true := by
    intro c hc
    exact List.all_eq_true.mp h c hc
  unfold jsTrim
  rw [dropWhile_of_all s.data hall]
  rfl

/-! ## Claim C1 -/

/-- Claim C1, as stated, is false: a request with layer set to the empty
string produces a payload carrying the claim layer = "", which differs from
the payload of the same request with layer omitted. -/
theorem c1_counterexample :
    handleJwtPost (some "key")
        (some { documentId := some "doc", permissions := none, layer := some "" }) =
      .ok { document_id := "doc", permissions := defaultPermissions, layer := some "" } ∧
    handleJwtPost (some "key")
        (some { documentId := some "doc", permissions := none, layer := none }) =
      .ok { document_id := "doc", permissions := defaultPermissions, layer := none } ∧
    (some "" : Option String) ≠ none := by
  refine ⟨rfl, rfl, by simp⟩

/-- Claim C1 (amended): for every token-issuance request with a non-empty
documentId and available signing key, the payload's layer claim mirrors the
request's layer field verbatim: it is omitted exactly when the layer field is
absent, and equals s for every string s supplied, including the empty
string. -/
theorem c1_layer_claim_verbatim (key d : String) (perms : Option (List String))
    (layerArg : Option String) (hd : d ≠ "") :
    handleJwtPost (some key)
        (some { documentId := some d, permissions := perms, layer := layerArg }) =
      .ok { document_id := d, permissions := perms.getD defaultPermissions, layer := layerArg } := by
  cases layerArg with
  | some s =>
    simp [handleJwtPost, generateJWTForLayer, hd]
  | none =>
    cases perms with
    | some ps => simp [handleJwtPost, generateJWTWithPermissions, hd]
    | none => simp [handleJwtPost, generateDocumentEngineJWT, hd]

/-- Witness for C1's amended theorem at a concrete request. -/
theorem c1_witness :
    handleJwtPost (some "key")
        (some { documentId := some "doc", permissions := none, layer := some "team1" }) =
      .ok { document_id := "doc", permissions := defaultPermissions, layer := some "team1" } :=
  c1_layer_claim_verbatim "key" "doc" none (some "team1") (by decide)

/-! ## Claim C3 -/

/-- Claim C3, as stated, is false: when the upstream list contains "" at a
non-first position, the produced list keeps it there and the default entry is
not first. -/
theorem c3_counterexample :
    (fetchLayersPipeline ["reviewer-a", ""]).head? =
      some { name := "reviewer-a", displayName := "reviewer-a", isDefault := false } ∧
    (∃ l ∈ fetchLayersPipeline ["reviewer-a", ""], l.name = "") ∧
    "reviewer-a" ≠ "" := by
  refine ⟨by decide, by decide, by decide⟩

/-- Claim C3 (amended): when the upstream list does not contain "", the
produced list is the default entry first followed by the upstream names in
order, the default appears exactly once with isDefault true, and every other
entry has isDefault false; when the upstream list already contains "", the
produced list is exactly the upstream list mapped in order (the default entry
is not moved to the front). -/
theorem c3_default_layer (ns : List String) :
    ("" ∉ ns →
      fetchLayersPipeline ns = mkInstantLayer "" :: ns.map mkInstantLayer ∧
      (fetchLayersPipeline ns).head? =
        some { name := "", displayName := "Default", isDefault := true } ∧
      ((fetchLayersPipeline ns).filter (fun l => l.isDefault)).length = 1 ∧
      ∀ l ∈ ns.map mkInstantLayer, l.isDefault = false) ∧
    ("" ∈ ns → fetchLayersPipeline ns = ns.map mkInstantLayer) := by
  constructor
  · intro hnot
    have hpipe : fetchLayersPipeline ns = mkInstantLayer "" :: ns.map mkInstantLayer := by
      simp [fetchLayersPipeline, layersRouteBody, hnot]
    have hfalse : ∀ l ∈ ns.map mkInstantLayer, l.isDefault = false := by
      intro l hl
      obtain ⟨x, hx, rfl⟩ := List.mem_map.mp hl
      have hxne : x ≠ "" := fun hcontra => hnot (hcontra ▸ hx)
      simp [mkInstantLayer, hxne]
    refine ⟨hpipe, ?_, ?_, hfalse⟩
    · rw [hpipe]; rfl
    · rw [hpipe]
      have hdef : (mkInstantLayer "").isDefault = true := by decide
      rw [List.filter_cons_of_pos (by simpa using hdef)]
      have : (ns.map mkInstantLayer).filter (fun l => l.isDefault) = [] := by
        rw [List.filter_eq_nil_iff]
        intro l hl
        simp [hfalse l hl]
      simp [this]
  · intro hmem
    simp [fetchLayersPipeline, layersRouteBody, hmem]

/-- Witness for C3's amended theorem at the spec's example upstream list. -/
theorem c3_witness :
    fetchLayersPipeline ["reviewer-a"] =
      mkInstantLayer "" :: ["reviewer-a"].map mkInstantLayer :=
  ((c3_default_layer ["reviewer-a"]).1 (by decide)).1

/-! ## Claim C4 -/

/-- Claim C4, as stated, is false: the sanitation of a value with a toJS
capability returns the conversion result as-is, without recursively
sanitizing it — here the private-named key survives, while recursive
sanitation would drop it. -/
theorem c4_counterexample :
    sanitizeEventData (.immut (.obj [("_x", .num 1)])) = .obj [("_x", .num 1)] ∧
    sanitizeEventData (.obj [("_x", .num 1)]) = .obj [] ∧
    JsVal.obj [("_x", JsVal.num 1)] ≠ JsVal.obj [] := by
  refine ⟨rfl, ?_, by simp⟩
  simp [sanitizeEventData, sanitizeField, isPrivateKey]

/-- Claim C4 (amended): null and undefined map to null; a value exposing a
toJS capability maps to the result of that conversion as-is (no recursive
sanitation of that result); an array maps to the element-wise sanitized
array; any other object maps to a shallow copy that drops function-valued
entries and keys starting with "_", replaces every nested non-null object
lacking the toJS capability with the placeholder "[Object]", replaces a
nested object having the capability with its conversion result, and keeps
primitive values (including null) unchanged; primitives pass through. -/
theorem c4_sanitize_spec :
    (sanitizeEventData .null = .null ∧ sanitizeEventData .undef = .null) ∧
    (∀ c, sanitizeEventData (.immut c) = c) ∧
    (∀ xs, sanitizeEventData (.arr xs) = .arr (xs.map sanitizeEventData)) ∧
    (∀ fs, sanitizeEventData (.obj fs) =
      .obj (fs.filterMap (fun p => sanitizeField p.1 p.2))) ∧
    (∀ k v, isPrivateKey k = true → sanitizeField k v = none) ∧
    (∀ k, isPrivateKey k = false →
      (∀ i, sanitizeField k (.fn i) = none) ∧
      (∀ c, sanitizeField k (.immut c) = some (k, c)) ∧
      (∀ xs, sanitizeField k (.arr xs) = some (k, .str "[Object]")) ∧
      (∀ fs, sanitizeField k (.obj fs) = some (k, .str "[Object]")) ∧
      sanitizeField k .null = some (k, .null) ∧
      (∀ q, sanitizeField k (.num q) = some (k, .num q)) ∧
      (∀ s, sanitizeField k (.str s) = some (k, .str s)) ∧
      (∀ b, sanitizeField k (.bool b) = some (k, .bool b))) := by
  refine ⟨⟨rfl, rfl⟩, fun c => rfl, ?_, fun fs => rfl, ?_, ?_⟩
  · intro xs
    simp [sanitizeEventData, sanitizeEventList_eq_map]
  · intro k v hk
    simp [sanitizeField, hk]
  · intro k hk
    refine ⟨fun i => by simp [sanitizeField, hk], fun c => by simp [sanitizeField, hk],
      fun xs => by simp [sanitizeField, hk], fun fs => by simp [sanitizeField, hk],
      by simp [sanitizeField, hk], fun q => by simp [sanitizeField, hk],
      fun s => by simp [sanitizeField, hk], fun b => by simp [sanitizeField, hk]⟩

/-- Witness for C4's amended theorem at concrete inputs. -/
theorem c4_witness :
    sanitizeField "_x" (.num 1) = none ∧
    sanitizeField "pageIndex" (.num 3) = some ("pageIndex", .num 3) := by
  refine ⟨c4_sanitize_spec.2.2.2.2.1 "_x" (.num 1) (by decide), ?_⟩
  exact (c4_sanitize_spec.2.2.2.2.2 "pageIndex" (by decide)).2.2.2.2.2.1 3

/-! ## Claim C5 -/

/-- Claim C5: with an instance bound, a numeric mirrored zoom z steps to
min(z + 0.25, 10) on zoomIn and max(z - 0.25, 0.1) on zoomOut, while a
non-numeric (named fit mode) mirrored zoom switches to exactly 1.25 on
zoomIn and exactly 0.75 on zoomOut. -/
theorem c5_zoom_step (s : ActionsState) (d : InstData) (hinst : s.inst = some d) :
    (∀ z, s.currentZoom = .num z →
      engineZoom (zoomIn s) = some (.num (min (z + 1 / 4) 10)) ∧
      engineZoom (zoomOut s) = some (.num (max (z - 1 / 4) (1 / 10)))) ∧
    ((∀ q, s.currentZoom ≠ .num q) →
      engineZoom (zoomIn s) = some (.num (5 / 4)) ∧
      engineZoom (zoomOut s) = some (.num (3 / 4))) := by
  constructor
  · intro z hz
    constructor
    · simp [zoomIn, hinst, hz, setZoom, engineZoom, ZOOM_STEP, MAX_ZOOM]
    · simp [zoomOut, hinst, hz, setZoom, engineZoom, ZOOM_STEP, MIN_ZOOM]
  · intro hnn
    constructor
    · cases hcz : s.currentZoom
      case num q => exact absurd hcz (hnn q)
      all_goals simp [zoomIn, hinst, hcz, setZoom, engineZoom]
    · cases hcz : s.currentZoom
      case num q => exact absurd hcz (hnn q)
      all_goals simp [zoomOut, hinst, hcz, setZoom, engineZoom]

/-- Witness for C5 at a concrete state in fit-to-width mode. -/
theorem c5_witness :
    engineZoom (zoomIn fitModeSample) = some (.num (5 / 4)) :=
  ((c5_zoom_step fitModeSample _ rfl).2 (fun q h => by cases h)).1

/-! ## Claim C8 -/

/-- Claim C8: with an instance bound and mirrored total page count n,
goToPage(i) writes max(0, min(i, n - 1)) into the engine view state; in
particular goToPage(n) (for n at least 1) yields n - 1 and goToPage(-5)
yields 0; next, previous, first and last are goToPage applied to
currentPage + 1, currentPage - 1, 0 and n - 1 respectively. -/
theorem c8_navigation (s : ActionsState) (d : InstData) (hinst : s.inst = some d) :
    (∀ i : ℚ, enginePage (goToPage s i) = some (max 0 (min i (s.totalPages - 1)))) ∧
    (1 ≤ s.totalPages →
      enginePage (goToPage s s.totalPages) = some (s.totalPages - 1)) ∧
    enginePage (goToPage s (-5)) = some 0 ∧
    goToNextPage s = goToPage s (s.currentPage + 1) ∧
    goToPreviousPage s = goToPage s (s.currentPage - 1) ∧
    goToFirstPage s = goToPage s 0 ∧
    goToLastPage s = goToPage s (s.totalPages - 1) := by
  have hmain : ∀ i : ℚ, enginePage (goToPage s i) = some (max 0 (min i (s.totalPages - 1))) := by
    intro i
    simp [goToPage, hinst, enginePage]
  refine ⟨hmain, ?_, ?_, rfl, rfl, rfl, rfl⟩
  · intro hn
    rw [hmain]
    have h1 : min s.totalPages (s.totalPages - 1) = s.totalPages - 1 :=
      min_eq_right (by linarith)
    have h2 : max 0 (s.totalPages - 1) = s.totalPages - 1 :=
      max_eq_right (by linarith)
    rw [h1, h2]
  · rw [hmain]
    have h1 : min (-5 : ℚ) (s.totalPages - 1) ≤ 0 :=
      le_trans (min_le_left _ _) (by norm_num)
    rw [max_eq_left h1]

/-- Witness for C8 at a concrete five-page state. -/
theorem c8_witness :
    enginePage (goToPage navSample 7) = some (max 0 (min 7 (navSample.totalPages - 1))) :=
  (c8_navigation navSample _ rfl).1 7

/-! ## Claim C2 -/

/-- In a listener-operation sequence that is removals followed by
attachments, every removal's position precedes every attachment's
position. -/
theorem ops_remove_before_attach (l : List ListenerOp)
    (hsplit : ∃ l1 l2, l = l1 ++ l2 ∧ (∀ x ∈ l1, x.isAttach = false) ∧
      (∀ x ∈ l2, x.isRemove = false)) :
    ∀ i j (hi : i < l.length) (hj : j < l.length),
      (l.get ⟨i, hi⟩).isRemove = true → (l.get ⟨j, hj⟩).isAttach = true → i < j := by
  obtain ⟨l1, l2, rfl, h1, h2⟩ := hsplit
  intro i j hi hj hrem hatt
  have hil : i < l1.length := by
    by_contra hno
    push_neg at hno
    have hi2 : i - l1.length < l2.length := by
      rw [List.length_append] at hi
      omega
    have hget : (l1 ++ l2).get ⟨i, hi⟩ = l2.get ⟨i - l1.length, hi2⟩ := by
      rw [List.get_eq_getElem, List.get_eq_getElem, List.getElem_append_right hno]
    have hfalse := h2 _ (List.get_mem l2 _ hi2)
    rw [← hget, hrem] at hfalse
    cases hfalse
  have hjl : l1.length ≤ j := by
    by_contra hno
    push_neg at hno
    have hget : (l1 ++ l2).get ⟨j, hj⟩ = l1.get ⟨j, hno⟩ := by
      rw [List.get_eq_getElem, List.get_eq_getElem, List.getElem_append_left]
    have hfalse := h1 _ (List.get_mem l1 _ hno)
    rw [← hget, hatt] at hfalse
    cases hfalse
  omega

/-- Removal operations are not attachments. -/
theorem mem_removals_isAttach_false (types : List String) (a : Nat) :
    ∀ x ∈ types.map (fun t => ListenerOp.remove a t), x.isAttach = false := by
  intro x hx
  obtain ⟨t, _, rfl⟩ := List.mem_map.mp hx
  rfl

/-- Attachment operations are not removals. -/
theorem mem_attaches_isRemove_false (types : List String) (b : Nat) :
    ∀ x ∈ types.map (fun t => ListenerOp.attach b t), x.isRemove = false := by
  intro x hx
  obtain ⟨t, _, rfl⟩ := List.mem_map.mp hx
  rfl

/-- The useViewerEvents watch-callback trace splits into removals (on the old
instance) followed by attachments (to the new one). -/
theorem eventsWatchOps_split (newInst oldInst : Option Nat) (w : EventsWorld) :
    ∃ l1 l2, eventsWatchOps newInst oldInst w = l1 ++ l2 ∧
      (∀ x ∈ l1, x.isAttach = false) ∧ (∀ x ∈ l2, x.isRemove = false) := by
  refine ⟨_, _, rfl, ?_, ?_⟩
  · intro x hx
    cases oldInst with
    | none => simp at hx
    | some a =>
      have hx2 : x ∈ (if w.listening = true then
          w.listenerTypes.map (fun t => ListenerOp.remove a t) else []) := hx
      by_cases hl : w.listening = true
      · rw [if_pos hl] at hx2
        exact mem_removals_isAttach_false _ a x hx2
      · rw [if_neg hl] at hx2
        simp at hx2
  · intro x hx
    cases newInst with
    | none => simp at hx
    | some b =>
      have hx2 : x ∈ (if (eventsCleanup oldInst w).listening = true then []
          else trackedEvents.map (fun t => ListenerOp.attach b t)) := hx
      by_cases hl : (eventsCleanup oldInst w).listening = true
      · rw [if_pos hl] at hx2
        simp at hx2
      · rw [if_neg hl] at hx2
        exact mem_attaches_isRemove_false _ b x hx2

/-- The useViewerActions watch-callback trace splits the same way. -/
theorem actionsWatchOps_split (newInst : Option (Nat × InstData))
    (oldInst : Option Nat) (w : ActionsWorld) :
    ∃ l1 l2, actionsWatchOps newInst oldInst w = l1 ++ l2 ∧
      (∀ x ∈ l1, x.isAttach = false) ∧ (∀ x ∈ l2, x.isRemove = false) := by
  refine ⟨_, _, rfl, ?_, ?_⟩
  · intro x hx
    cases oldInst with
    | none => simp at hx
    | some a => exact mem_removals_isAttach_false _ a x hx
  · intro x hx
    cases newInst with
    | none => simp at hx
    | some bd =>
      obtain ⟨b, d⟩ := bd
      exact mem_attaches_isRemove_false _ b x hx

/-- After a change from instance a to instance b, the events bridge's engine
registry holds exactly the tracked kinds on b. -/
theorem eventsWatch_registry_after (a b : Nat) (w : EventsWorld)
    (hInv : EventsInv w (some a)) :
    (eventsWatchCb (some b) (some a) w).registry =
      trackedEvents.map (fun t => (b, t)) := by
  have hcb : eventsWatchCb (some b) (some a) w =
      startListening (some b) (eventsCleanup (some a) w) := rfl
  rw [hcb]
  by_cases hl : w.listening = true
  · have hclean : eventsCleanup (some a) w = removeBridgeListeners a w := by
      simp [eventsCleanup, hl]
    rw [hclean]
    have hregnil : (removeBridgeListeners a w).registry = [] := by
      simp only [removeBridgeListeners]
      rw [List.filter_eq_nil_iff]
      intro p hp
      obtain ⟨hpa, _, hmem⟩ := hInv p hp
      have ha : p.1 = a := by
        injection hpa with h
        exact h.symm
      simp [ha, hmem]
    have hlst : (removeBridgeListeners a w).listening = false := rfl
    simp [startListening, hlst, hregnil]
  · have hclean : eventsCleanup (some a) w = w := by
      simp [eventsCleanup, hl]
    rw [hclean]
    have hregnil : w.registry = [] := by
      cases hcase : w.registry with
      | nil => rfl
      | cons p ps =>
        exfalso
        have hlist := (hInv p (by rw [hcase]; exact List.mem_cons_self p ps)).2.1
        rw [hlist] at hl
        exact hl rfl
    simp [startListening, hl, hregnil]

/-- After a change from instance a to instance (b, d), the actions bridge's
engine registry holds exactly its two kinds on b. -/
theorem actionsWatch_registry_after (a b : Nat) (d : InstData) (w : ActionsWorld)
    (hInv : ActionsInv w (some a)) :
    (actionsWatchCb (some (b, d)) (some a) w).registry =
      actionsEvents.map (fun t => (b, t)) := by
  have hcb : actionsWatchCb (some (b, d)) (some a) w =
      setupActions b d (cleanupActions a w) := rfl
  rw [hcb]
  have hregnil : (cleanupActions a w).registry = [] := by
    simp only [cleanupActions]
    rw [List.filter_eq_nil_iff]
    intro p hp
    obtain ⟨hpa, hmem⟩ := hInv p hp
    have ha : p.1 = a := by
      injection hpa with h
      exact h.symm
    simp [ha, hmem]
  simp [setupActions, hregnil]

/-- Claim C2: on every instance change, each watch callback removes every
listener of the old instance before attaching any listener to the new one
(every removal position precedes every attachment position in the call
trace, for both the events bridge and the actions bridge); and after a
change from instance a to instance b, delivery of any event from a leaves
the bridge state (activity log, mirrored page, mirrored zoom) unchanged,
while delivery of tracked events from b updates it. -/
theorem c2_listener_lifecycle :
    (∀ (newInst oldInst : Option Nat) (w : EventsWorld) (i j : Nat)
        (hi : i < (eventsWatchOps newInst oldInst w).length)
        (hj : j < (eventsWatchOps newInst oldInst w).length),
        ((eventsWatchOps newInst oldInst w).get ⟨i, hi⟩).isRemove = true →
        ((eventsWatchOps newInst oldInst w).get ⟨j, hj⟩).isAttach = true → i < j) ∧
    (∀ (newInst : Option (Nat × InstData)) (oldInst : Option Nat) (w : ActionsWorld) (i j : Nat)
        (hi : i < (actionsWatchOps newInst oldInst w).length)
        (hj : j < (actionsWatchOps newInst oldInst w).length),
        ((actionsWatchOps newInst oldInst w).get ⟨i, hi⟩).isRemove = true →
        ((actionsWatchOps newInst oldInst w).get ⟨j, hj⟩).isAttach = true → i < j) ∧
    (∀ a b : Nat, a ≠ b → ∀ w : EventsWorld, EventsInv w (some a) →
      (∀ t p, deliverEvent a t p (eventsWatchCb (some b) (some a) w) =
        eventsWatchCb (some b) (some a) w) ∧
      (∀ t ∈ trackedEvents, ∀ p,
        (deliverEvent b t p (eventsWatchCb (some b) (some a) w)).counter =
          (eventsWatchCb (some b) (some a) w).counter + 1)) ∧
    (∀ a b : Nat, ∀ d : InstData, a ≠ b → ∀ w : ActionsWorld, ActionsInv w (some a) →
      (∀ t p, deliverAction a t p (actionsWatchCb (some (b, d)) (some a) w) =
        actionsWatchCb (some (b, d)) (some a) w) ∧
      (∀ q : ℚ, (deliverAction b "viewState.currentPageIndex.change" (.num q)
          (actionsWatchCb (some (b, d)) (some a) w)).currentPage = q) ∧
      (∀ p, (deliverAction b "viewState.zoom.change" p
          (actionsWatchCb (some (b, d)) (some a) w)).currentZoom = extractZoomValue p)) := by
  refine ⟨?_, ?_, ?_, ?_⟩
  · intro newInst oldInst w
    exact ops_remove_before_attach _ (eventsWatchOps_split newInst oldInst w)
  · intro newInst oldInst w
    exact ops_remove_before_attach _ (actionsWatchOps_split newInst oldInst w)
  · intro a b hab w hInv
    have hreg := eventsWatch_registry_after a b w hInv
    constructor
    · intro t p
      have hnot : (a, t) ∉ (eventsWatchCb (some b) (some a) w).registry := by
        rw [hreg]
        intro hmem
        obtain ⟨t0, _, heq⟩ := List.mem_map.mp hmem
        have hba : b = a := congrArg Prod.fst heq
        exact hab hba.symm
      simp [deliverEvent, hnot]
    · intro t ht p
      have hmem : (b, t) ∈ (eventsWatchCb (some b) (some a) w).registry := by
        rw [hreg]
        exact List.mem_map.mpr ⟨t, ht, rfl⟩
      simp [deliverEvent, hmem]
  · intro a b d hab w hInv
    have hreg := actionsWatch_registry_after a b d w hInv
    have hmemb : ∀ t ∈ actionsEvents,
        (b, t) ∈ (actionsWatchCb (some (b, d)) (some a) w).registry := by
      intro t ht
      rw [hreg]
      exact List.mem_map.mpr ⟨t, ht, rfl⟩
    refine ⟨?_, ?_, ?_⟩
    · intro t p
      have hnot : (a, t) ∉ (actionsWatchCb (some (b, d)) (some a) w).registry := by
        rw [hreg]
        intro hmem
        obtain ⟨t0, _, heq⟩ := List.mem_map.mp hmem
        have hba : b = a := congrArg Prod.fst heq
        exact hab hba.symm
      simp [deliverAction, hnot]
    · intro q
      have hmem := hmemb "viewState.currentPageIndex.change" (by decide)
      simp [deliverAction, hmem]
    · intro p
      have hmem := hmemb "viewState.zoom.change" (by decide)
      simp [deliverAction, hmem]

/-- Witness for C2: a concrete removal precedes a concrete attachment in the
trace of a change from instance 0 to instance 1, and delivery from the old
instance 0 after that change is a no-op on the bridge state. -/
theorem c2_witness :
    (0 : Nat) < 1 ∧
    deliverEvent 0 "document.change" .null (eventsWatchCb (some 1) (some 0) idleEventsWorld) =
      eventsWatchCb (some 1) (some 0) idleEventsWorld := by
  constructor
  · exact c2_listener_lifecycle.1 (some 1) (some 0) listeningEventsWorld 0 1
      (by decide) (by decide) (by decide) (by decide)
  · exact (c2_listener_lifecycle.2.2.1 0 1 (by decide) idleEventsWorld
      (fun p hp => absurd hp (List.not_mem_nil p))).1 "document.change" .null

/-! ## Claim C6 -/

/-- Claim C6: a query that is empty or whitespace-only yields zero matches
with a no-op navigator and never invokes the engine search; a query on which
the engine search rejects is caught and likewise yields zero matches with a
no-op navigator instead of an error. -/
theorem c6_search_guards
    (inst : Option (String → Except String (List SearchResultItem))) (q : String) :
    (q.data.all jsWhitespace = true →
      (searchRun inst q).totalMatches = 0 ∧
      (searchRun inst q).engineSearchInvoked = false ∧
      ∀ i, (searchRun inst q).goToResult i = .noop) ∧
    (∀ es e, inst = some es → es q = .error e →
      (searchRun inst q).totalMatches = 0 ∧
      ∀ i, (searchRun inst q).goToResult i = .noop) := by
  constructor
  · intro hws
    have htrim : jsTrim q = "" := jsTrim_of_all_whitespace q hws
    cases inst with
    | none =>
      refine ⟨rfl, rfl, fun i => rfl⟩
    | some es =>
      simp [searchRun, htrim, emptySearchReturn]
  · intro es e hinst herr
    subst hinst
    by_cases htrim : jsTrim q = ""
    · simp [searchRun, htrim, emptySearchReturn]
    · simp [searchRun, htrim, herr, emptySearchReturn]

/-- Witness for C6: a whitespace-only query and a rejected engine search at
concrete inputs. -/
theorem c6_witness :
    (searchRun (some (fun _ => Except.error "engine failure")) "   ").totalMatches = 0 ∧
    (searchRun (some (fun _ => Except.error "engine failure")) "term").totalMatches = 0 := by
  constructor
  · exact ((c6_search_guards (some (fun _ => Except.error "engine failure")) "   ").1 (by decide)).1
  · exact ((c6_search_guards (some (fun _ => Except.error "engine failure")) "term").2
      (fun _ => Except.error "engine failure") "engine failure" rfl rfl).1

/-! ## Claim C7 -/

/-- Claim C7: an empty/whitespace-only name or a name already in the
directory makes createLayer return no token, set the error state and leave
the directory unchanged (an existing name keeps exactly one entry); any other
name is appended as (name, name, not-default) and, when the token request
succeeds, a layer-scoped token for that name is returned. -/
theorem c7_createLayer (st : LayersState) (docId : Option String)
    (issue : JwtBody → Except HttpError String) (name : String) :
    ((jsTrim name = "" ∨ ∃ l ∈ st.layers, l.name = name) →
      (createLayer st docId issue name).2 = none ∧
      (createLayer st docId issue name).1.layers = st.layers ∧
      (createLayer st docId issue name).1.error ≠ none ∧
      ((st.layers.filter (fun l => l.name == name)).length = 1 →
        ((createLayer st docId issue name).1.layers.filter (fun l => l.name == name)).length = 1)) ∧
    (jsTrim name ≠ "" → (∀ l ∈ st.layers, l.name ≠ name) →
      ∀ d tok, docId = some d →
        issue { documentId := some d, permissions := none, layer := some name } = .ok tok →
        createLayer st docId issue name =
          ({ st with layers := st.layers ++
              [{ name := name, displayName := name, isDefault := false }] }, some tok)) := by
  constructor
  · intro h
    by_cases htrim : jsTrim name = ""
    · refine ⟨?_, ?_, ?_, ?_⟩ <;> simp [createLayer, htrim]
    · have hdup : ∃ l ∈ st.layers, l.name = name := h.resolve_left htrim
      have hany : st.layers.any (fun l => l.name == name) = true := by
        rw [List.any_eq_true]
        obtain ⟨l, hl, hname⟩ := hdup
        exact ⟨l, hl, by simp [hname]⟩
      refine ⟨?_, ?_, ?_, ?_⟩ <;> simp [createLayer, htrim, hany]
  · intro htrim hnone d tok hdoc hiss
    have hany : st.layers.any (fun l => l.name == name) = false := by
      rw [List.any_eq_false]
      intro l hl
      simp [hnone l hl]
    subst hdoc
    simp [createLayer, htrim, hany, getLayerJWT, hiss]

/-- Witness for C7: creating a fresh layer in an empty directory with a
successful token request. -/
theorem c7_witness :
    createLayer {} (some "doc") (fun _ => Except.ok "tok") "team1" =
      ({ ({} : LayersState) with layers := ({} : LayersState).layers ++
          [{ name := "team1", displayName := "team1", isDefault := false }] }, some "tok") :=
  (c7_createLayer {} (some "doc") (fun _ => Except.ok "tok") "team1").2
    (by decide) (by simp) "doc" "tok" rfl rfl

/-! ## Claim C9 -/

/-- Claim C9, as stated, is false: createTextAnnotation passes the customData
option through verbatim, so a supplied empty mapping (zero key/value pairs)
is still attached to the constructed annotation. -/
theorem c9_counterexample :
    emptyCustomDataOpts.customData = some [] ∧
    (buildTextAnn emptyCustomDataOpts).customData = some [] ∧
    (some ([] : List (String × JsVal))) ≠ none := by
  exact ⟨rfl, rfl, by simp⟩

/-- Claim C9 (amended): the constructed annotation uses the given position, a
size defaulting to 200 by 100 when none is supplied, fixed default styling
(font size 14, black text, light-yellow fill), and carries the supplied
customData verbatim (attached whenever supplied, even when empty; absent when
omitted); a successful engine create is followed by a full re-fetch of all
annotations into the local cache, never an incremental patch. -/
theorem c9_create_text_annotation_spec (o : CreateTextAnnotationOptions)
    (doc : EngineDoc) (st : AnnotationsState) :
    (buildTextAnn o).pageIndex = o.pageIndex ∧
    (buildTextAnn o).boundingBox =
      { left := o.position.left, top := o.position.top,
        width := (o.size.getD ⟨200, 100⟩).width, height := (o.size.getD ⟨200, 100⟩).height } ∧
    (o.size = none → (buildTextAnn o).boundingBox.width = 200 ∧
      (buildTextAnn o).boundingBox.height = 100) ∧
    (buildTextAnn o).fontSize = 14 ∧
    (buildTextAnn o).fontColor = blackColor ∧
    (buildTextAnn o).backgroundColor = lightYellowColor ∧
    (buildTextAnn o).customData = o.customData ∧
    (∃ doc2 ann,
      createTextAnnotationModel (some doc) st o =
        .ok (doc2, { annotations := getAllAnnotationsModel (some doc2), error := none },
          some ann)) := by
  refine ⟨rfl, rfl, ?_, rfl, rfl, rfl, rfl, ?_⟩
  · intro hsize
    simp [buildTextAnn, hsize]
  · exact ⟨_, _, rfl⟩

/-- Witness for C9's amended theorem: omitted size yields the 200 by 100
default at a concrete creation. -/
theorem c9_witness :
    (buildTextAnn sampleCreateOpts).boundingBox.width = 200 ∧
    (buildTextAnn sampleCreateOpts).boundingBox.height = 100 :=
  (c9_create_text_annotation_spec sampleCreateOpts sampleEngineDoc {}).2.2.1 rfl

/-! ## Claim C10 -/

/-- Claim C10: createLayer appends the new layer to the directory before
requesting the layer-scoped token, so when the token request fails it
returns no token and sets the error state while the appended entry remains
in the directory — the append is not rolled back. -/
theorem c10_no_rollback (st : LayersState) (d : String)
    (issue : JwtBody → Except HttpError String) (name : String) (e : HttpError)
    (htrim : jsTrim name ≠ "") (hnew : ∀ l ∈ st.layers, l.name ≠ name)
    (hfail : issue { documentId := some d, permissions := none, layer := some name } = .error e) :
    createLayer st (some d) issue name =
      ({ st with
          layers := st.layers ++ [{ name := name, displayName := name, isDefault := false }],
          error := some ("Failed to get layer JWT: " ++ e.message) }, none) := by
  have hany : st.layers.any (fun l => l.name == name) = false := by
    rw [List.any_eq_false]
    intro l hl
    simp [hnew l hl]
  simp [createLayer, htrim, hany, getLayerJWT, hfail]

/-- Witness for C10: a failed token request at a concrete fresh name leaves
the appended directory entry in place. -/
theorem c10_witness :
    createLayer {} (some "doc") (fun _ => Except.error ⟨500, "key missing"⟩) "team1" =
      ({ ({} : LayersState) with
          layers := ({} : LayersState).layers ++
            [{ name := "team1", displayName := "team1", isDefault := false }],
          error := some ("Failed to get layer JWT: " ++
            (⟨500, "key missing"⟩ : HttpError).message) }, none) :=
  c10_no_rollback {} "doc" (fun _ => Except.error ⟨500, "key missing"⟩) "team1"
    ⟨500, "key missing"⟩ (by decide) (by simp) rfl

end NutrientApp
